import Mathlib

/-!
Shallow embedding of the resilient extraction pipeline of `flipkart-scraper`
(`src/scraper/parser.py`, `src/scraper/flipkart_scraper.py`,
`src/database/db_manager.py`).

Python strings are modelled as `List Char` so that every string operation the
code performs (`strip`, `startswith`, splitting a `class` attribute) is a
structurally recursive Lean function that the kernel can evaluate.  HTML markup
is modelled as a parse tree (`Node`), i.e. the result of
`BeautifulSoup(html, 'html.parser')`; the CSS-selector subset actually used by
the source (attribute presence, class conjunction, tag, tag+class, descendant
combinator) is given an executable semantics (`select`).  Browser, network and
clock effects are modelled by an explicit environment (`Env`) and an event
trace (`Event`): a `fetch` event is `page.goto`, a `delay` event is
`asyncio.sleep(delay_between_requests)`, a `cleanup` event is
`_cleanup_browser`, an `insertBatch` event is a call to
`DatabaseManager.insert_products_batch`.
-/

/-- Python strings, modelled as lists of characters. -/
abbrev Str := List Char

/-- Coerce a Lean string literal to the `Str` model. -/
def str (s : String) : Str := s.data

/-- Whitespace test used by Python `str.strip` (modelled by `Char.isWhitespace`). -/
def isSpace (c : Char) : Bool := c.isWhitespace

/-- Python `s.strip()`: drop whitespace from both ends. -/
def pyStrip (s : Str) : Str :=
  ((s.dropWhile isSpace).reverse.dropWhile isSpace).reverse

/-- Python `s.startswith(p)`. -/
def startswith : Str → Str → Bool
  | _, [] => true
  | [], _ :: _ => false
  | c :: cs, p :: ps => c == p && startswith cs ps

/-- Split on whitespace, dropping empty pieces (how BeautifulSoup turns a
`class` attribute value into a class list).  `cur` holds the current piece,
reversed. -/
def splitWsAux : Str → Str → List Str
  | [], cur => if cur.isEmpty then [] else [cur.reverse]
  | c :: cs, cur =>
    if isSpace c then
      (if cur.isEmpty then splitWsAux cs [] else cur.reverse :: splitWsAux cs [])
    else splitWsAux cs (c :: cur)

/-- Whitespace split of an attribute value. -/
def splitWs (s : Str) : List Str := splitWsAux s []

/-- Decimal digits of `n`, most significant first, with structural fuel so the
kernel can evaluate it. -/
def natToCharsAux : Nat → Nat → Str
  | 0, _ => []
  | fuel + 1, n =>
    if n < 10 then [Char.ofNat (48 + n)]
    else natToCharsAux fuel (n / 10) ++ [Char.ofNat (48 + n % 10)]

/-- Decimal rendering of a natural number (Python `str(n)` inside `urlencode`). -/
def natToChars (n : Nat) : Str := natToCharsAux (n + 1) n

/-! ## HTML parse tree (the BeautifulSoup document model) -/

/-- A node of the parsed markup: either a text node or an element with a tag
name, an attribute list and children in document order. -/
inductive Node where
  | text (s : Str)
  | elem (tag : Str) (attrs : List (Str × Str)) (children : List Node)

/-- BeautifulSoup `tag.get(attr)`: first binding of the attribute, if any. -/
def attrGet (n : Node) (a : Str) : Option Str :=
  match n with
  | .text _ => none
  | .elem _ attrs _ => (attrs.find? (fun p => p.1 == a)).map (fun p => p.2)

/-- Class list of an element (whitespace split of its `class` attribute). -/
def nodeClasses (n : Node) : List Str :=
  match attrGet n (str "class") with
  | some v => splitWs v
  | none => []

/-! ## CSS selector subset used by the source -/

/-- A simple selector: optional tag name, required classes, required attribute
presences.  Covers `[data-id]`, `.C`, `.C1.C2`, `a[title]`, `img.DByuf4`,
`KzDlHZ` (a bare tag-name selector) from the source's selector tables. -/
structure SimpleSel where
  tag : Option Str
  classes : List Str
  attrsPresent : List Str

/-- A selector: a chain of ancestor simple selectors (outermost first, for the
descendant combinator, e.g. `._2r_T1I img`) and the target simple selector. -/
structure Sel where
  ancestors : List SimpleSel
  target : SimpleSel

/-- Does the node match a simple selector?  Text nodes never match. -/
def matchesSimple (n : Node) (ss : SimpleSel) : Bool :=
  match n with
  | .text _ => false
  | .elem t _ _ =>
    (match ss.tag with
     | none => true
     | some tg => t == tg)
    && ss.classes.all (fun c => (nodeClasses n).contains c)
    && ss.attrsPresent.all (fun a => (attrGet n a).isSome)

/-- Can the ancestor chain be matched, in order, against the ancestor path
(outermost first)?  Subsequence matching, as for the CSS descendant
combinator. -/
def matchesAncestors : List SimpleSel → List Node → Bool
  | [], _ => true
  | _ :: _, [] => false
  | a :: as, p :: ps =>
    if matchesSimple p a then matchesAncestors as ps else matchesAncestors (a :: as) ps

mutual

/-- Nodes matching `s` in the subtree rooted at the given node (the node
itself included as a candidate), in document order; `path` is the list of
ancestors, outermost first. -/
def selectNode (s : Sel) (path : List Node) : Node → List Node
  | .text _ => []
  | .elem t a cs =>
    (if matchesSimple (.elem t a cs) s.target && matchesAncestors s.ancestors path
     then [Node.elem t a cs] else [])
      ++ selectForest s (path ++ [Node.elem t a cs]) cs

/-- `selectNode` mapped over a forest, concatenated in order. -/
def selectForest (s : Sel) (path : List Node) : List Node → List Node
  | [] => []
  | n :: rest => selectNode s path n ++ selectForest s path rest

end

/-- BeautifulSoup `root.select(sel)`: matching proper descendants of `root`,
in document order (the root itself can serve as an ancestor for a descendant
combinator, but is not itself a result). -/
def select (root : Node) (s : Sel) : List Node :=
  match root with
  | .text _ => []
  | .elem t a cs => selectForest s [Node.elem t a cs] cs

/-- BeautifulSoup `root.select_one(sel)`. -/
def select_one (root : Node) (s : Sel) : Option Node :=
  (select root s).head?

mutual

/-- All text-node contents below (and at) a node, in document order. -/
def nodeTexts : Node → List Str
  | .text s => [s]
  | .elem _ _ cs => forestTexts cs

/-- `nodeTexts` over a forest. -/
def forestTexts : List Node → List Str
  | [] => []
  | n :: rest => nodeTexts n ++ forestTexts rest

end

/-- BeautifulSoup `get_text(strip=True)`: concatenation of the stripped text
pieces. -/
def get_text_strip (n : Node) : Str :=
  ((nodeTexts n).map pyStrip).flatten

/-! ## Selector helpers for writing the source's selector tables -/

/-- Selector `[a]` (attribute presence). -/
def selAttr (a : String) : Sel := ⟨[], ⟨none, [], [str a]⟩⟩

/-- Selector `.c` (single class). -/
def selClass (c : String) : Sel := ⟨[], ⟨none, [str c], []⟩⟩

/-- Selector `.c1.c2` (class conjunction). -/
def selClass2 (c₁ c₂ : String) : Sel := ⟨[], ⟨none, [str c₁, str c₂], []⟩⟩

/-- Selector `t` (bare tag name). -/
def selTag (t : String) : Sel := ⟨[], ⟨some (str t), [], []⟩⟩

/-- Selector `t[a]` (tag with attribute presence). -/
def selTagAttr (t a : String) : Sel := ⟨[], ⟨some (str t), [], [str a]⟩⟩

/-- Selector `t.c` (tag with class). -/
def selTagClass (t c : String) : Sel := ⟨[], ⟨some (str t), [str c], []⟩⟩

/-- Selector `.c t` (descendant combinator with a class ancestor). -/
def selDescTag (c t : String) : Sel := ⟨[⟨none, [str c], []⟩], ⟨some (str t), [], []⟩⟩

/-! ## FlipkartParser (src/scraper/parser.py) -/

/-- Product record emitted by the parser (the dict built at
`parser.py:100-104`). -/
structure Product where
  title : Str
  price : Str
  image_url : Str
deriving DecidableEq

/-- Container cascade `product_selectors` (`parser.py:19-27`), duplicate last
entry included. -/
def product_selectors : List Sel :=
  [ selAttr "data-id"
  , selAttr "data-tkid"
  , selClass "_75nlfW"
  , selClass "CGtC98"
  , selClass2 "cPHDOP" "col-12-12"
  , selClass2 "DOjaWF" "gdgoEp"
  , selClass2 "DOjaWF" "gdgoEp" ]

/-- Title cascade `title_selectors` (`parser.py:62-70`); `KzDlHZ` without a
dot is a bare tag-name selector, kept as in the source. -/
def title_selectors : List Sel :=
  [ selClass "KzDlHZ"
  , selClass "_4rR01T"
  , selClass "IRpwTa"
  , selClass "_2WkVRV"
  , selTagAttr "a" "title"
  , selTag "KzDlHZ"
  , selClass "_2mylT6" ]

/-- Price cascade `price_selectors` (`parser.py:77-84`). -/
def price_selectors : List Sel :=
  [ selClass2 "Nx9bqj" "_4b5DiR"
  , selClass2 "yRaY8j" "ZYYwLA"
  , selClass "_3tbFF2"
  , selClass "Ce9jPB"
  , selClass "_2_R_DZ"
  , selClass "_3auQ3N" ]

/-- Image cascade `image_selectors` (`parser.py:89-96`). -/
def image_selectors : List Sel :=
  [ selTagAttr "img" "src"
  , selClass "DByuf4"
  , selDescTag "_2r_T1I" "img"
  , selDescTag "CXW8mj" "img"
  , selClass "yPq5Io"
  , selTagClass "img" "DByuf4" ]

/-- `FlipkartParser._get_text_by_selectors` (`parser.py:112-127`): first
selector whose match has non-empty stripped text, else a truthy (non-empty)
`title` attribute on that same matched node, else continue the cascade. -/
def get_text_by_selectors (element : Node) : List Sel → Option Str
  | [] => none
  | selector :: rest =>
    match select_one element selector with
    | some found_element =>
      let text := get_text_strip found_element
      if !text.isEmpty then some text
      else
        match attrGet found_element (str "title") with
        | some v => if !v.isEmpty then some v else get_text_by_selectors element rest
        | none => get_text_by_selectors element rest
    | none => get_text_by_selectors element rest

/-- Attribute cascade of `_get_image_by_selectors` (`parser.py:137-140`):
first attribute among `src`, `data-src`, `data-original` whose value is
truthy and begins with `http` or `//`. -/
def firstValidImageAttr (img_element : Node) : List Str → Option Str
  | [] => none
  | attr :: rest =>
    match attrGet img_element attr with
    | some img_url =>
      if !img_url.isEmpty && (startswith img_url (str "http") || startswith img_url (str "//"))
      then some img_url
      else firstValidImageAttr img_element rest
    | none => firstValidImageAttr img_element rest

/-- `FlipkartParser._get_image_by_selectors` (`parser.py:129-143`). -/
def get_image_by_selectors (element : Node) : List Sel → Option Str
  | [] => none
  | selector :: rest =>
    match select_one element selector with
    | some img_element =>
      match firstValidImageAttr img_element [str "src", str "data-src", str "data-original"] with
      | some img_url => some img_url
      | none => get_image_by_selectors element rest
    | none => get_image_by_selectors element rest

/-- `FlipkartParser._extract_product_info` (`parser.py:57-110`).  Python
truthiness of the optional strings is modelled explicitly (`None` and the
empty string are both falsy). -/
def extract_product_info (element : Node) : Option Product :=
  match get_text_by_selectors element title_selectors with
  | none => none
  | some title =>
    if title.isEmpty then none  -- `if not title: return None` (lines 73-74)
    else
      let price := get_text_by_selectors element price_selectors
      let image_url := get_image_by_selectors element image_selectors
      some ⟨ pyStrip title  -- `title.strip() if title else ''` (line 101)
           , (match price with  -- `price.strip() if price else 'N/A'` (line 102)
              | some p => if p.isEmpty then str "N/A" else pyStrip p
              | none => str "N/A")
           , (match image_url with  -- `image_url or ''` (line 103)
              | some u => if u.isEmpty then [] else u
              | none => []) ⟩

/-- First cascade entry with a non-empty node set wins (`parser.py:29-35`). -/
def first_match (doc : Node) : List Sel → List Node
  | [] => []
  | selector :: rest =>
    let elements := select doc selector
    if elements.isEmpty then first_match doc rest else elements

/-- Container location step of `parse_product_listings` (`parser.py:29-39`). -/
def find_containers (doc : Node) : List Node :=
  first_match doc product_selectors

/-- `FlipkartParser.parse_product_listings` (`parser.py:10-55`), taking the
already-parsed document.  Line 44 keeps a candidate only when the dict is
truthy (it always is) and its `title` entry is truthy. -/
def parse_product_listings (doc : Node) : List Product :=
  let product_elements := find_containers doc
  product_elements.filterMap fun element =>
    match extract_product_info element with
    | some product_data =>
      if product_data.title.isEmpty then none else some product_data
    | none => none

/-! ## Scraper configuration and effect environment -/

/-- `ScraperConfig` (`utils/config.py`). -/
structure ScraperConfig where
  base_url : Str
  search_endpoint : Str
  max_pages : Nat
  delay_between_requests : Nat
  timeout : Nat
  headless : Bool

/-- Default scraper configuration (`utils/config.py`). -/
def defaultScraperConfig : ScraperConfig :=
  ⟨str "https://www.flipkart.com", str "/search", 3, 2, 30, true⟩

/-- Effect environment for one run: whether the browser process starts
(`_setup_browser`), what `page.goto`/`page.content()` produce per URL
(`none` models any exception inside the fetch `try` block: timeout, network
error, crash), and the external HTML parser
(`BeautifulSoup(html, 'html.parser')`). -/
structure Env where
  setupOk : Bool
  fetchMarkup : Str → Option Str
  parseHtml : Str → Node

/-- Observable events of a run, in order. -/
inductive Event where
  | fetch (url : Str)
  | delay
  | cleanup
  | insertBatch (records : List Product)
deriving DecidableEq

/-- URLs of the `fetch` events of a trace, in order. -/
def fetchedUrls (evs : List Event) : List Str :=
  evs.filterMap fun e =>
    match e with
    | .fetch u => some u
    | _ => none

/-- Number of `delay` events in a trace. -/
def delayCount (evs : List Event) : Nat :=
  (evs.filter fun e =>
    match e with
    | .delay => true
    | _ => false).length

/-- Record batches handed to `insert_products_batch`, in call order. -/
def insertBatchCalls (evs : List Event) : List (List Product) :=
  evs.filterMap fun e =>
    match e with
    | .insertBatch rs => some rs
    | _ => none

/-! ## FlipkartScraper (src/scraper/flipkart_scraper.py) -/

/-- Characters `urllib.parse.quote_plus` leaves unescaped. -/
def isUrlSafe (c : Char) : Bool :=
  c.isAlphanum || c == '_' || c == '.' || c == '-' || c == '~'

/-- Uppercase hexadecimal digit. -/
def hexDigit (n : Nat) : Char :=
  if n < 10 then Char.ofNat (48 + n) else Char.ofNat (55 + n)

/-- Percent-encoding of one character for `quote_plus` (code points above 255
are encoded per code point in this model; the keywords in play are ASCII). -/
def quotePlusChar (c : Char) : Str :=
  if isUrlSafe c then [c]
  else if c == ' ' then ['+']
  else '%' :: [hexDigit (c.toNat / 16), hexDigit (c.toNat % 16)]

/-- Python `urllib.parse.quote_plus`. -/
def quote_plus (s : Str) : Str := s.flatMap quotePlusChar

/-- `FlipkartScraper._build_search_url` (`flipkart_scraper.py:62-68`):
`f"{base_url}/search?{urlencode({'q': keyword, 'page': page})}"`. -/
def build_search_url (cfg : ScraperConfig) (keyword : Str) (page : Nat) : Str :=
  cfg.base_url ++ str "/search?" ++ str "q=" ++ quote_plus keyword
    ++ str "&page=" ++ natToChars page

/-- `FlipkartScraper._setup_browser` (`flipkart_scraper.py:21-44`): on
failure the handler logs and re-raises (line 44). -/
def setup_browser (env : Env) : Except Unit Unit :=
  if env.setupOk then .ok () else .error ()

/-- `FlipkartScraper._get_page_content` (`flipkart_scraper.py:71-120`).
On a successful fetch the readiness-selector waits and the short-content
check only log, then `asyncio.sleep(delay_between_requests)` runs (line 114)
and the content is returned; any exception inside the `try` block is caught
(lines 118-120) and yields `None` without reaching the sleep. -/
def get_page_content (env : Env) (url : Str) : Option Str × List Event :=
  match env.fetchMarkup url with
  | some content => (some content, [.fetch url, .delay])
  | none => (none, [.fetch url])

/-- One iteration of the page loop of `search_products`
(`flipkart_scraper.py:129-143`): build the URL, fetch, and when the content
is truthy (non-`None` and non-empty) parse it and extend the aggregate; the
`except` at line 141 never fires in this pure model. -/
def process_page (env : Env) (cfg : ScraperConfig) (keyword : Str)
    (acc : List Product × List Event) (page_num : Nat) : List Product × List Event :=
  let url := build_search_url cfg keyword page_num
  let r := get_page_content env url
  let products :=
    match r.1 with
    | some html_content =>
      if html_content.isEmpty then []
      else parse_product_listings (env.parseHtml html_content)
    | none => []
  (acc.1 ++ products, acc.2 ++ r.2)

/-- Page indices of the loop `range(1, min(pages + 1, max_pages + 1))`
(`flipkart_scraper.py:129`). -/
def pageRange (pages maxPages : Nat) : List Nat :=
  List.range' 1 (min (pages + 1) (maxPages + 1) - 1)

/-- `FlipkartScraper.search_products` (`flipkart_scraper.py:122-152`).  The
outer `except Exception` (line 147) absorbs a setup failure, the `finally`
(line 149) always runs `_cleanup_browser`, and the accumulated list is
returned; the `Except` layer records whether an exception escapes to the
caller (it never does). -/
def search_products (env : Env) (cfg : ScraperConfig) (keyword : Str) (pages : Nat) :
    Except Unit (List Product) × List Event :=
  match setup_browser env with
  | .error _ => (.ok [], [.cleanup])
  | .ok _ =>
    let r := (pageRange pages cfg.max_pages).foldl (process_page env cfg keyword) ([], [])
    (.ok r.1, r.2 ++ [.cleanup])

/-! ## DatabaseManager (src/database/db_manager.py) -/

/-- Database effect environment: whether `session.commit()` succeeds for the
call (`False` models a `SQLAlchemyError`). -/
structure DbEnv where
  commitOk : Bool

/-- An open SQLAlchemy session over a committed table state, with pending
uncommitted rows. -/
structure DbSession where
  committed : List Product
  pending : List Product

/-- `session.add_all(rows)`. -/
def session_add_all (s : DbSession) (rows : List Product) : DbSession :=
  ⟨s.committed, s.pending ++ rows⟩

/-- `session.commit()`: atomically publish the pending rows, or fail with the
state unpublished. -/
def session_commit (ok : Bool) (s : DbSession) : Except Unit DbSession :=
  if ok then .ok ⟨s.committed ++ s.pending, []⟩ else .error ()

/-- `session.rollback()`: discard the pending rows. -/
def session_rollback (s : DbSession) : DbSession :=
  ⟨s.committed, []⟩

/-- `DatabaseManager.insert_products_batch` (`db_manager.py:78-104`): build
the rows, `add_all`, one `commit`; on `SQLAlchemyError` roll back and leave
`inserted_count` at 0.  Returns the reported count and the table state after
the call (the model's rows keep the dict fields unchanged, since every key is
present). -/
def insert_products_batch (db : DbEnv) (st : List Product)
    (products_data : List Product) : Nat × List Product :=
  let session : DbSession := ⟨st, []⟩
  let products := products_data
  let session := session_add_all session products
  match session_commit db.commitOk session with
  | .ok s => (products.length, s.committed)
  | .error _ => (0, (session_rollback session).committed)

/-- `FlipkartScraper.scrape_and_save` (`flipkart_scraper.py:158-178`): run
`search_products`; when no products were found return 0 without touching the
database (lines 166-168); otherwise hand the aggregate to
`insert_products_batch` and return the count it reports.  Result: saved
count, table state after the call, event trace. -/
def scrape_and_save (env : Env) (db : DbEnv) (st : List Product)
    (cfg : ScraperConfig) (keyword : Str) (pages : Nat) :
    Nat × List Product × List Event :=
  let r := search_products env cfg keyword pages
  match r.1 with
  | .error _ => (0, st, r.2)
  | .ok products =>
    if products.isEmpty then (0, st, r.2)
    else
      let b := insert_products_batch db st products
      (b.1, b.2, r.2 ++ [.insertBatch products])

/-! ## Concrete documents and environments used by witnesses -/

/-- Well-formed product container: title, price and image present. -/
def cont1 : Node :=
  .elem (str "div") [(str "data-id", str "a1")]
    [ .elem (str "a") [(str "class", str "KzDlHZ")] [.text (str "Phone A")]
    , .elem (str "div") [(str "class", str "Nx9bqj _4b5DiR")] [.text (str "₹9,999")]
    , .elem (str "img") [(str "src", str "http://img.example/a.png")] [] ]

/-- Container with a title only. -/
def cont2 : Node :=
  .elem (str "div") [(str "data-id", str "b2")]
    [ .elem (str "a") [(str "class", str "KzDlHZ")] [.text (str "Phone B")] ]

/-- A two-product page. -/
def docPage1 : Node := .elem (str "html") [] [cont1, cont2]

/-- A one-product page. -/
def docPage3 : Node :=
  .elem (str "html") []
    [ .elem (str "div") [(str "data-id", str "c3")]
        [ .elem (str "a") [(str "class", str "KzDlHZ")] [.text (str "Phone C")] ] ]

/-- Record parsed from the first container of `docPage1`. -/
def prodA : Product := ⟨str "Phone A", str "₹9,999", str "http://img.example/a.png"⟩

/-- Record parsed from the second container of `docPage1`. -/
def prodB : Product := ⟨str "Phone B", str "N/A", []⟩

/-- Record parsed from the only container of `docPage3`. -/
def prodC : Product := ⟨str "Phone C", str "N/A", []⟩

/-- Page whose only container has a price node with no text but a
whitespace-only `title` attribute. -/
def docC5 : Node :=
  .elem (str "html") []
    [ .elem (str "div") [(str "data-id", str "c")]
        [ .elem (str "a") [(str "class", str "KzDlHZ")] [.text (str "Phone")]
        , .elem (str "div") [(str "class", str "_3tbFF2"), (str "title", str "  ")] [] ] ]

/-- Page matching the third container selector (`._75nlfW`) and the fourth
(`.CGtC98`), but not the first two. -/
def docC7 : Node :=
  .elem (str "html") []
    [ .elem (str "div") [(str "class", str "_75nlfW")] []
    , .elem (str "div") [(str "class", str "CGtC98")] [] ]

/-! ## Helper lemmas -/

/-- Membership in the parser's output comes from a container whose extraction
succeeded with a truthy title. -/
theorem parse_mem_extract {doc : Node} {p : Product}
    (hp : p ∈ parse_product_listings doc) :
    ∃ element ∈ find_containers doc,
      extract_product_info element = some p ∧ p.title.isEmpty = false := by
  unfold parse_product_listings at hp
  simp only [List.mem_filterMap] at hp
  obtain ⟨element, hel, hf⟩ := hp
  refine ⟨element, hel, ?_⟩
  cases hx : extract_product_info element with
  | none => simp [hx] at hf
  | some pd =>
    simp only [hx] at hf
    by_cases ht : pd.title.isEmpty = true
    · simp [ht] at hf
    · simp only [ht, if_false, Bool.false_eq_true, if_neg] at hf
      obtain rfl := Option.some.inj hf
      exact ⟨rfl, by simpa using ht⟩

/-- Claim C3: for every input document, every record in the output of
`parse_product_listings` has a non-empty title; a container whose title
extraction yields an empty or whitespace-only string contributes no record
(the whitespace-only case strips to the empty string at `parser.py:101` and
is dropped by the truthiness filter at `parser.py:44`, inside the parser). -/
theorem c3_title_invariant (doc : Node) (p : Product)
    (hp : p ∈ parse_product_listings doc) : p.title ≠ [] := by
  obtain ⟨e, _, _, ht⟩ := parse_mem_extract hp
  intro hnil
  rw [hnil] at ht
  simp at ht

/-- Witness for C3 at a concrete two-product page. -/
theorem c3_witness : prodA.title ≠ [] :=
  c3_title_invariant docPage1 prodA (by decide)

/-- A value accepted by the image attribute cascade begins with `http` or `//`. -/
theorem firstValidImageAttr_valid {n : Node} {attrs : List Str} {u : Str}
    (h : firstValidImageAttr n attrs = some u) :
    startswith u (str "http") = true ∨ startswith u (str "//") = true := by
  induction attrs with
  | nil => simp [firstValidImageAttr] at h
  | cons a rest ih =>
    unfold firstValidImageAttr at h
    cases hx : attrGet n a with
    | none => rw [hx] at h; exact ih h
    | some v =>
      simp only [hx] at h
      by_cases hc : (!v.isEmpty && (startswith v (str "http") || startswith v (str "//"))) = true
      · rw [if_pos hc] at h
        obtain rfl := Option.some.inj h
        have := (Bool.and_eq_true _ _).mp hc
        exact (Bool.or_eq_true _ _).mp this.2
      · rw [if_neg hc] at h; exact ih h

/-- A URL returned by the image selector cascade begins with `http` or `//`. -/
theorem get_image_valid {element : Node} {sels : List Sel} {u : Str}
    (h : get_image_by_selectors element sels = some u) :
    startswith u (str "http") = true ∨ startswith u (str "//") = true := by
  induction sels with
  | nil => simp [get_image_by_selectors] at h
  | cons s rest ih =>
    unfold get_image_by_selectors at h
    cases hx : select_one element s with
    | none => rw [hx] at h; exact ih h
    | some img =>
      simp only [hx] at h
      cases hy : firstValidImageAttr img [str "src", str "data-src", str "data-original"] with
      | none => simp only [hy] at h; exact ih h
      | some v =>
        simp only [hy] at h
        obtain rfl := Option.some.inj h
        exact firstValidImageAttr_valid hy

/-- Image field of a successfully extracted record is empty or a valid URL. -/
theorem extract_image_valid {element : Node} {p : Product}
    (h : extract_product_info element = some p) :
    p.image_url = [] ∨ startswith p.image_url (str "http") = true
      ∨ startswith p.image_url (str "//") = true := by
  unfold extract_product_info at h
  cases ht : get_text_by_selectors element title_selectors with
  | none => simp [ht] at h
  | some title =>
    simp only [ht] at h
    by_cases he : title.isEmpty = true
    · simp [he] at h
    · simp only [he, Bool.false_eq_true, if_neg, if_false] at h
      cases hi : get_image_by_selectors element image_selectors with
      | none =>
        simp only [hi] at h
        obtain rfl := Option.some.inj h
        left; rfl
      | some u =>
        simp only [hi] at h
        by_cases hu : u.isEmpty = true
        · rw [if_pos hu] at h
          obtain rfl := Option.some.inj h
          left; rfl
        · rw [if_neg hu] at h
          obtain rfl := Option.some.inj h
          right
          exact get_image_valid hi

/-- Claim C6: for every record emitted by the parser, `image_url` is either
empty or begins with `http` or `//`; the attribute cascade (`src`,
`data-src`, `data-original`, in that order, embedded in
`get_image_by_selectors`) never lets an invalid URL through. -/
theorem c6_image_validity (doc : Node) (p : Product)
    (hp : p ∈ parse_product_listings doc) :
    p.image_url = [] ∨ startswith p.image_url (str "http") = true
      ∨ startswith p.image_url (str "//") = true := by
  obtain ⟨e, _, hx, _⟩ := parse_mem_extract hp
  exact extract_image_valid hx

/-- Witness for C6 at a record carrying an `http` image URL. -/
theorem c6_witness :
    prodA.image_url = [] ∨ startswith prodA.image_url (str "http") = true
      ∨ startswith prodA.image_url (str "//") = true :=
  c6_image_validity docPage1 prodA (by decide)

/-- Unfolding of `first_match` on a non-empty cascade. -/
theorem first_match_cons (doc : Node) (s : Sel) (rest : List Sel) :
    first_match doc (s :: rest)
      = if (select doc s).isEmpty then first_match doc rest else select doc s := rfl

/-- First cascade entry with a non-empty match set wins, exclusively. -/
theorem first_match_spec (doc : Node) (sels : List Sel) :
    (first_match doc sels = [] ∧ ∀ s ∈ sels, select doc s = [])
    ∨ ∃ i, ∃ h : i < sels.length,
        select doc (sels.get ⟨i, h⟩) ≠ []
        ∧ first_match doc sels = select doc (sels.get ⟨i, h⟩)
        ∧ ∀ j, ∀ hj : j < i, select doc (sels.get ⟨j, Nat.lt_trans hj h⟩) = [] := by
  induction sels with
  | nil => left; exact ⟨rfl, by simp⟩
  | cons s rest ih =>
    by_cases hs : (select doc s).isEmpty = true
    · have hsel : select doc s = [] := List.isEmpty_iff.mp hs
      have hfm : first_match doc (s :: rest) = first_match doc rest := by
        rw [first_match_cons, if_pos hs]
      rcases ih with ⟨h1, h2⟩ | ⟨i, hi, hne, heq, hprev⟩
      · left
        refine ⟨hfm.trans h1, ?_⟩
        intro t ht
        rcases List.mem_cons.mp ht with rfl | ht'
        · exact hsel
        · exact h2 t ht'
      · right
        refine ⟨i + 1, Nat.succ_lt_succ hi, hne, hfm.trans heq, ?_⟩
        intro j hj
        cases j with
        | zero => exact hsel
        | succ k => exact hprev k (Nat.lt_of_succ_lt_succ hj)
    · right
      refine ⟨0, Nat.succ_pos _, ?_, ?_, ?_⟩
      · show select doc s ≠ []
        simpa [List.isEmpty_iff] using hs
      · show first_match doc (s :: rest) = select doc s
        rw [first_match_cons, if_neg hs]
      · intro j hj
        exact absurd hj (Nat.not_lt_zero j)

/-- Claim C7: container location is first-match-wins and exclusive.  If no
container selector matches, the parser returns no records; otherwise the
container set is exactly the match set of the first cascade entry with a
non-empty match set, and every earlier entry matched nothing (so no
lower-priority matches are ever unioned in). -/
theorem c7_container_first_match (doc : Node) :
    ((∀ s ∈ product_selectors, select doc s = []) →
        find_containers doc = [] ∧ parse_product_listings doc = [])
    ∧ (find_containers doc = []
       ∨ ∃ i, ∃ h : i < product_selectors.length,
           select doc (product_selectors.get ⟨i, h⟩) ≠ []
           ∧ find_containers doc = select doc (product_selectors.get ⟨i, h⟩)
           ∧ ∀ j, ∀ hj : j < i,
               select doc (product_selectors.get ⟨j, Nat.lt_trans hj h⟩) = []) := by
  constructor
  · intro hall
    have hfc : find_containers doc = [] := by
      rcases first_match_spec doc product_selectors with ⟨h1, _⟩ | ⟨i, hi, hne, _, _⟩
      · exact h1
      · exact absurd (hall _ (List.get_mem _ _ _)) hne
    refine ⟨hfc, ?_⟩
    unfold parse_product_listings
    rw [hfc]
    rfl
  · rcases first_match_spec doc product_selectors with ⟨h1, _⟩ | h2
    · left; exact h1
    · right; exact h2

/-- Witness for C7 at a page matched by the third container selector. -/
theorem c7_witness :
    ∃ i, ∃ h : i < product_selectors.length,
      select docC7 (product_selectors.get ⟨i, h⟩) ≠ []
      ∧ find_containers docC7 = select docC7 (product_selectors.get ⟨i, h⟩) := by
  rcases (c7_container_first_match docC7).2 with hempty | ⟨i, hi, hne, heq, _⟩
  · exact absurd (congrArg List.length hempty) (by decide)
  · exact ⟨i, hi, hne, heq⟩

/-- Claim C5 is violated by the code: at a page whose only container has a
price node with no text but a whitespace-only `title` attribute,
`_get_text_by_selectors` returns the raw attribute value (`parser.py:123-124`
checks truthiness before stripping), and `price.strip() if price else 'N/A'`
(`parser.py:102`) then produces the empty string, so the parser emits a
record whose price is neither a non-empty string nor `N/A`. -/
theorem c5_empty_price_emitted :
    parse_product_listings docC5 = [⟨str "Phone", [], []⟩]
    ∧ (⟨str "Phone", [], []⟩ : Product).price = []
    ∧ (⟨str "Phone", [], []⟩ : Product).price ≠ str "N/A" := by
  exact ⟨by decide, rfl, by decide⟩

/-! ## Concrete environments -/

/-- Configuration used by the concrete witnesses (the source defaults,
`maxPages = 3`). -/
def cfgT : ScraperConfig := defaultScraperConfig

/-- Environment whose browser process fails to start. -/
def envBad : Env := ⟨false, fun _ => none, fun _ => .text []⟩

/-- Environment whose browser starts but every navigation fails. -/
def envAllFail : Env := ⟨true, fun _ => none, fun _ => .text []⟩

/-- Environment for a three-page run where page 2 fails to fetch and pages 1
and 3 return markup. -/
def envT : Env :=
  ⟨ true
  , fun u =>
      if u = build_search_url cfgT (str "phone") 1 then some (str "m1")
      else if u = build_search_url cfgT (str "phone") 3 then some (str "m3")
      else none
  , fun s =>
      if s = str "m1" then docPage1
      else if s = str "m3" then docPage3
      else .text [] ⟩

/-- Database environment whose commit succeeds. -/
def dbOk : DbEnv := ⟨true⟩

/-! ## Event-trace lemmas -/

theorem fetchedUrls_append (l₁ l₂ : List Event) :
    fetchedUrls (l₁ ++ l₂) = fetchedUrls l₁ ++ fetchedUrls l₂ := by
  unfold fetchedUrls
  exact List.filterMap_append ..

theorem insertBatchCalls_append (l₁ l₂ : List Event) :
    insertBatchCalls (l₁ ++ l₂) = insertBatchCalls l₁ ++ insertBatchCalls l₂ := by
  unfold insertBatchCalls
  exact List.filterMap_append ..

/-- Every fetch attempt produces exactly one `fetch` event, whatever the
outcome. -/
theorem fetchedUrls_get_page_content (env : Env) (url : Str) :
    fetchedUrls (get_page_content env url).2 = [url] := by
  unfold get_page_content
  cases env.fetchMarkup url <;> rfl

theorem insertBatchCalls_get_page_content (env : Env) (url : Str) :
    insertBatchCalls (get_page_content env url).2 = [] := by
  unfold get_page_content
  cases env.fetchMarkup url <;> rfl

/-- The page loop emits one `fetch` event per page index, in order. -/
theorem foldl_process_page_fetchedUrls (env : Env) (cfg : ScraperConfig) (keyword : Str)
    (nums : List Nat) :
    ∀ acc : List Product × List Event,
      fetchedUrls ((nums.foldl (process_page env cfg keyword) acc).2)
        = fetchedUrls acc.2 ++ nums.map (build_search_url cfg keyword) := by
  induction nums with
  | nil => intro acc; simp
  | cons n ns ih =>
    intro acc
    rw [List.foldl_cons, ih]
    show fetchedUrls (acc.2 ++ (get_page_content env (build_search_url cfg keyword n)).2)
        ++ ns.map (build_search_url cfg keyword) = _
    rw [fetchedUrls_append, fetchedUrls_get_page_content]
    simp

/-- The page loop never emits an `insertBatch` event. -/
theorem foldl_process_page_insertCalls (env : Env) (cfg : ScraperConfig) (keyword : Str)
    (nums : List Nat) :
    ∀ acc : List Product × List Event,
      insertBatchCalls ((nums.foldl (process_page env cfg keyword) acc).2)
        = insertBatchCalls acc.2 := by
  induction nums with
  | nil => intro acc; rfl
  | cons n ns ih =>
    intro acc
    rw [List.foldl_cons, ih]
    show insertBatchCalls (acc.2 ++ (get_page_content env (build_search_url cfg keyword n)).2) = _
    rw [insertBatchCalls_append, insertBatchCalls_get_page_content]
    simp

/-- The loop bound `range(1, min(pages + 1, max_pages + 1))` enumerates
`1 .. min(pages, max_pages)`. -/
theorem pageRange_eq (pages maxPages : Nat) :
    pageRange pages maxPages = List.range' 1 (min pages maxPages) := by
  unfold pageRange
  congr 1
  omega

/-- `search_products` never calls the storage collaborator. -/
theorem search_products_no_insert (env : Env) (cfg : ScraperConfig)
    (keyword : Str) (pages : Nat) :
    insertBatchCalls (search_products env cfg keyword pages).2 = [] := by
  unfold search_products
  cases setup_browser env with
  | error e => rfl
  | ok u =>
    show insertBatchCalls
        (((pageRange pages cfg.max_pages).foldl (process_page env cfg keyword) ([], [])).2
          ++ [Event.cleanup]) = []
    rw [insertBatchCalls_append, foldl_process_page_insertCalls]
    rfl

/-- Claim C1 counterexample: with a browser that fails to start,
`search_products` returns the normal (non-exceptional) result `ok []`
instead of re-raising — the outer `except Exception` at
`flipkart_scraper.py:147` absorbs the setup failure. -/
theorem c1_counterexample :
    envBad.setupOk = false
    ∧ (search_products envBad cfgT (str "phone") 3).1 = Except.ok [] := ⟨rfl, rfl⟩

/-- Claim C1 amended: if `_setup_browser` raises, `search_products` catches
the exception, attempts cleanup (the `finally` at `flipkart_scraper.py:149`),
and returns the empty list as a normal result; `scrape_and_save`
correspondingly returns 0.  No exception propagates to the caller. -/
theorem c1_setup_failure_absorbed (env : Env) (db : DbEnv) (st : List Product)
    (cfg : ScraperConfig) (keyword : Str) (pages : Nat)
    (h : env.setupOk = false) :
    search_products env cfg keyword pages = (Except.ok [], [Event.cleanup])
    ∧ scrape_and_save env db st cfg keyword pages = (0, st, [Event.cleanup]) := by
  have hs : search_products env cfg keyword pages = (Except.ok [], [Event.cleanup]) := by
    unfold search_products setup_browser
    rw [h]
    rfl
  refine ⟨hs, ?_⟩
  unfold scrape_and_save
  rw [hs]
  rfl

/-- Witness for the amended C1 at a concrete failing environment. -/
theorem c1_witness :
    search_products envBad cfgT (str "phone") 3 = (Except.ok [], [Event.cleanup])
    ∧ scrape_and_save envBad dbOk [] cfgT (str "phone") 3 = (0, [], [Event.cleanup]) :=
  c1_setup_failure_absorbed envBad dbOk [] cfgT (str "phone") 3 rfl

/-- Claim C2: for every keyword, requested page count `p ≥ 1` and configured
maximum `m ≥ 1`, a run whose browser starts fetches exactly the pages with
indices 1 through `min(p, m)` inclusive, in strict increasing order. -/
theorem c2_page_clamp (env : Env) (cfg : ScraperConfig) (keyword : Str) (pages : Nat)
    (hsetup : env.setupOk = true) (_hp : 1 ≤ pages) (_hm : 1 ≤ cfg.max_pages) :
    fetchedUrls (search_products env cfg keyword pages).2
      = (List.range' 1 (min pages cfg.max_pages)).map (build_search_url cfg keyword) := by
  unfold search_products setup_browser
  rw [hsetup]
  show fetchedUrls
      (((pageRange pages cfg.max_pages).foldl (process_page env cfg keyword) ([], [])).2
        ++ [Event.cleanup]) = _
  rw [fetchedUrls_append, foldl_process_page_fetchedUrls, pageRange_eq]
  show [] ++ _ ++ [] = _
  simp

/-- Witness for C2: requesting 10 pages with `maxPages = 3` fetches exactly
pages 1, 2, 3. -/
theorem c2_witness :
    fetchedUrls (search_products envAllFail cfgT (str "phone") 10).2
      = [ str "https://www.flipkart.com/search?q=phone&page=1"
        , str "https://www.flipkart.com/search?q=phone&page=2"
        , str "https://www.flipkart.com/search?q=phone&page=3" ] := by
  rw [c2_page_clamp envAllFail cfgT (str "phone") 10 rfl (by decide) (by decide)]
  decide

/-- Claim C4: in a 3-page run where only page 2 fails to fetch, the failing
page contributes zero records, the loop still fetches page 3, and the final
aggregate is page 1's records followed by page 3's records. -/
theorem c4_degraded_continuation (env : Env) (cfg : ScraperConfig) (keyword : Str)
    (c1 c3 : Str)
    (hsetup : env.setupOk = true)
    (hmax : 3 ≤ cfg.max_pages)
    (h1 : env.fetchMarkup (build_search_url cfg keyword 1) = some c1) (h1e : c1 ≠ [])
    (h2 : env.fetchMarkup (build_search_url cfg keyword 2) = none)
    (h3 : env.fetchMarkup (build_search_url cfg keyword 3) = some c3) (h3e : c3 ≠ []) :
    (search_products env cfg keyword 3).1
      = Except.ok (parse_product_listings (env.parseHtml c1)
          ++ parse_product_listings (env.parseHtml c3))
    ∧ fetchedUrls (search_products env cfg keyword 3).2
      = [ build_search_url cfg keyword 1
        , build_search_url cfg keyword 2
        , build_search_url cfg keyword 3 ] := by
  have hc1 : c1.isEmpty = false := by
    cases c1 with
    | nil => exact absurd rfl h1e
    | cons a l => rfl
  have hc3 : c3.isEmpty = false := by
    cases c3 with
    | nil => exact absurd rfl h3e
    | cons a l => rfl
  have hrange : pageRange 3 cfg.max_pages = [1, 2, 3] := by
    rw [pageRange_eq]
    have : min 3 cfg.max_pages = 3 := by omega
    rw [this]
    rfl
  unfold search_products setup_browser
  rw [hsetup]
  show (Except.ok (((pageRange 3 cfg.max_pages).foldl (process_page env cfg keyword) ([], [])).1) : Except Unit (List Product))
        = _
    ∧ fetchedUrls
        (((pageRange 3 cfg.max_pages).foldl (process_page env cfg keyword) ([], [])).2
          ++ [Event.cleanup]) = _
  rw [hrange]
  simp only [List.foldl_cons, List.foldl_nil, process_page, get_page_content, h1, h2, h3,
    hc1, hc3, Bool.false_eq_true, if_false]
  constructor
  · simp
  · simp [fetchedUrls, fetchedUrls_append]

/-- Witness for C4 at a concrete environment with markup on pages 1 and 3. -/
theorem c4_witness :
    (search_products envT cfgT (str "phone") 3).1 = Except.ok [prodA, prodB, prodC] := by
  have h := c4_degraded_continuation envT cfgT (str "phone") (str "m1") (str "m3")
    rfl (by decide) (by decide) (by decide) (by decide) (by decide) (by decide)
  have e : parse_product_listings (envT.parseHtml (str "m1"))
      ++ parse_product_listings (envT.parseHtml (str "m3")) = [prodA, prodB, prodC] := by
    decide
  rw [h.1, e]

/-- Claim C8 counterexample: a fetch that fails (navigation error) returns
absent markup with no `delay` event — the `except` at
`flipkart_scraper.py:118-120` returns before the sleep at line 114. -/
theorem c8_counterexample :
    (get_page_content envAllFail (str "https://www.flipkart.com/search?q=phone&page=1")).1 = none
    ∧ delayCount
        (get_page_content envAllFail (str "https://www.flipkart.com/search?q=phone&page=1")).2
      = 0 := ⟨rfl, rfl⟩

/-- Claim C8 amended: a fetch enforces the inter-request delay exactly once
when markup is successfully retrieved, and not at all when the fetch fails. -/
theorem c8_delay_only_on_success (env : Env) (url : Str) :
    delayCount (get_page_content env url).2
      = if (get_page_content env url).1.isSome then 1 else 0 := by
  unfold get_page_content
  cases env.fetchMarkup url <;> rfl

/-- Claim C9 counterexample: a run whose aggregate is empty returns 0 from
`scrape_and_save` without any `insertBatch` call
(`flipkart_scraper.py:166-168`), so there is not exactly one `insertBatch`
call per run. -/
theorem c9_counterexample :
    (search_products envAllFail cfgT (str "phone") 2).1 = Except.ok []
    ∧ insertBatchCalls (scrape_and_save envAllFail dbOk [] cfgT (str "phone") 2).2.2 = []
    ∧ (scrape_and_save envAllFail dbOk [] cfgT (str "phone") 2).1 = 0 := ⟨rfl, rfl, rfl⟩

/-- Claim C9 amended: when the aggregate is non-empty, `scrape_and_save`
makes exactly one `insertBatch` call, hands it the full aggregate, and
returns the count that call reports; when the aggregate is empty it makes no
`insertBatch` call and returns 0. -/
theorem c9_single_batch_insert (env : Env) (db : DbEnv) (st : List Product)
    (cfg : ScraperConfig) (keyword : Str) (pages : Nat) (products : List Product)
    (h : (search_products env cfg keyword pages).1 = Except.ok products) :
    (products = [] →
      scrape_and_save env db st cfg keyword pages
        = (0, st, (search_products env cfg keyword pages).2))
    ∧ (products ≠ [] →
        insertBatchCalls (scrape_and_save env db st cfg keyword pages).2.2 = [products]
        ∧ (scrape_and_save env db st cfg keyword pages).1
            = (insert_products_batch db st products).1) := by
  unfold scrape_and_save
  simp only [h]
  constructor
  · intro he
    subst he
    rfl
  · intro hne
    have hie : products.isEmpty = false := by
      cases products with
      | nil => exact absurd rfl hne
      | cons a l => rfl
    simp only [hie, Bool.false_eq_true, if_false]
    refine ⟨?_, trivial⟩
    rw [insertBatchCalls_append, search_products_no_insert]
    rfl

/-- Witness for the amended C9 at a run collecting three records. -/
theorem c9_witness :
    insertBatchCalls (scrape_and_save envT dbOk [] cfgT (str "phone") 3).2.2
      = [[prodA, prodB, prodC]]
    ∧ (scrape_and_save envT dbOk [] cfgT (str "phone") 3).1 = 3 := by
  have h := (c9_single_batch_insert envT dbOk [] cfgT (str "phone") 3
    [prodA, prodB, prodC] rfl).2 (by decide)
  exact ⟨h.1, h.2.trans (by decide)⟩

/-- Claim C10: batch insertion is all-or-nothing.  `insert_products_batch`
returns either exactly the length of its input with all rows committed, or 0
with the table state unchanged (rollback); never a strictly partial count. -/
theorem c10_batch_all_or_nothing (db : DbEnv) (st products_data : List Product) :
    insert_products_batch db st products_data = (products_data.length, st ++ products_data)
    ∨ insert_products_batch db st products_data = (0, st) := by
  unfold insert_products_batch session_add_all session_commit session_rollback
  by_cases h : db.commitOk = true <;> simp [h]
